import Mathlib

/-!
Verification of the bluesky_auto repository: a shallow embedding of the
post composer (src/src/agents/bluesky_agent.py, src/src/post_to_bluesky.py),
the tag generator and validators (src/src/agents/gemini_agent.py,
src/src/agents/health_news_agent.py), the dedup storage layer
(src/src/storage.py) and the publishing step of src/src/main.py, together
with theorems settling the specification claims about byte-accurate facet
offsets, skip behaviour, grapheme truncation, tag normalisation, validator
defaults, and dedup-store idempotence, durability and error handling.

Python strings are embedded as lists of characters (`PyStr`); UTF-8 byte
lengths are computed with `Char.utf8Size`, which agrees with Python
`len(s.encode(chr(39) ++ "utf-8" ++ chr(39)))`.  Fallible Python code is
embedded as `Option`-returning functions, `none` marking an uncaught
exception.  External collaborators (HTTP fetches, the LLM, the Bluesky
client) enter as explicit oracle parameters, as the spec treats them as
opaque collaborators.
-/

/-- A Python `str` value, embedded as its sequence of Unicode code points. -/
abbrev PyStr := List Char

/-- The UTF-8 byte length of a string: Python `len(s.encode())`. -/
def utf8Len (s : PyStr) : Nat := (s.map Char.utf8Size).sum

/-- `startsWithL hay needle`: does `hay` begin with `needle`?  (Python
`hay.startswith(needle)` over the remaining suffix during a find scan.) -/
def startsWithL : PyStr → PyStr → Bool
  | _, [] => true
  | [], _ :: _ => false
  | a :: as, b :: bs => a = b && startsWithL as bs

/-- Python `hay.find(needle)`: index (in characters) of the first occurrence
of `needle` in `hay`, `none` for Python result `-1`. -/
def findSub : PyStr → PyStr → Option Nat
  | [], needle => if startsWithL [] needle then some 0 else none
  | h :: t, needle =>
    if startsWithL (h :: t) needle then some 0
    else (findSub t needle).map (· + 1)

/-- Characters stripped by Python `str.strip()` (the ASCII whitespace
fragment; the inputs of this development contain no other whitespace). -/
def isPyWhitespace (c : Char) : Bool :=
  c = ' ' || c = '\t' || c = '\n' || c = '\r' || c = '\x0b' || c = '\x0c'

/-- Python `str.strip()`. -/
def pyStrip (s : PyStr) : PyStr :=
  ((s.dropWhile isPyWhitespace).reverse.dropWhile isPyWhitespace).reverse

/-- Worker for `pySplitWs`: accumulates the current word (reversed). -/
def splitWsAux : PyStr → PyStr → List PyStr
  | [], acc => if acc = [] then [] else [acc.reverse]
  | c :: t, acc =>
    if isPyWhitespace c then
      if acc = [] then splitWsAux t [] else acc.reverse :: splitWsAux t []
    else splitWsAux t (c :: acc)

/-- Python `str.split()` with no argument: split on whitespace runs,
discarding empty pieces. -/
def pySplitWs (s : PyStr) : List PyStr := splitWsAux s []

/-- Python `sep.join(parts)`. -/
def joinSep (sep : PyStr) : List PyStr → PyStr
  | [] => []
  | [x] => x
  | x :: y :: xs => x ++ sep ++ joinSep sep (y :: xs)

/-- Python `str.lower()` restricted to ASCII case mapping.  Python maps the
full Unicode case table; every non-ASCII character this development applies
it to is already lowercase, where both maps are the identity. -/
def lowerStr (s : PyStr) : PyStr := s.map Char.toLower

/-- Python `str.capitalize()`: first character uppercased, rest lowercased
(ASCII case mapping, see `lowerStr`). -/
def pyCapitalize : PyStr → PyStr
  | [] => []
  | c :: t => c.toUpper :: t.map Char.toLower

/-- `c.toNat < 128`: the character is ASCII, hence one UTF-8 byte. -/
def isAsciiChar (c : Char) : Bool := c.toNat < 128

/-- All characters of the string are ASCII. -/
def allAscii (s : PyStr) : Bool := s.all isAsciiChar

/-- ASCII letters and digits: the character class of the tag regular
expression `[a-zA-Z0-9]` in gemini_agent.py / post_to_bluesky.py. -/
def isAsciiAlnum (c : Char) : Bool :=
  ('0' ≤ c && c ≤ '9') || ('a' ≤ c && c ≤ 'z') || ('A' ≤ c && c ≤ 'Z')

/-- The tag invariant of the spec and of the cleaning step in
`generate_hashtags`: the string matches the pattern hash-then-one-or-more
ASCII alphanumerics (regex `re.match` of `#[a-zA-Z0-9]+` anchored). -/
def matchesTagPattern : PyStr → Bool
  | '#' :: rest => !(rest = []) && rest.all isAsciiAlnum
  | _ => false

/-- Fragment of Python `str.isalnum()` on one character: ASCII alphanumerics
plus the Latin-1 letters U+00AA, U+00B5, U+00BA and U+00C0..U+00FF less the
two operators U+00D7 and U+00F7.  Python's predicate covers all Unicode
alphanumerics; this development evaluates it only on characters of this
fragment, on which the two agree. -/
def pyIsAlnumChar (c : Char) : Bool :=
  isAsciiAlnum c ||
  (Char.ofNat 0xC0 ≤ c && c ≤ Char.ofNat 0xFF &&
    !(c = Char.ofNat 0xD7) && !(c = Char.ofNat 0xF7)) ||
  c = Char.ofNat 0xAA || c = Char.ofNat 0xB5 || c = Char.ofNat 0xBA

/-- An ASCII character occupies exactly one UTF-8 byte. -/
theorem utf8Size_of_ascii (c : Char) (h : c.toNat < 128) : c.utf8Size = 1 := by
  have h1 : c.val ≤ (127 : UInt32) := by
    rw [UInt32.le_def, BitVec.le_def]
    have e : c.val.toBitVec.toNat = c.toNat := rfl
    have e2 : ((127 : UInt32)).toBitVec.toNat = 127 := rfl
    rw [e, e2]
    omega
  simp only [Char.utf8Size]
  simp [h1]

/-- On an all-ASCII string the UTF-8 byte length equals the character count:
the char-offset/byte-offset distinction vanishes exactly there. -/
theorem utf8Len_of_allAscii (s : PyStr) (h : allAscii s = true) :
    utf8Len s = s.length := by
  induction s with
  | nil => rfl
  | cons c t ih =>
    simp only [allAscii, List.all_cons, Bool.and_eq_true] at h
    have hc : c.utf8Size = 1 := by
      apply utf8Size_of_ascii
      simpa [isAsciiChar] using h.1
    simp only [utf8Len, List.map_cons, List.sum_cons, hc]
    have ht := ih (by simpa [allAscii] using h.2)
    simp only [utf8Len] at ht
    simp [ht, List.length_cons, Nat.add_comm]

/-!
## Dedup store (src/src/storage.py)

The backing file `posted_entries.json` is modelled by `FileContent`.
`load_posted_entries` reads it with `json.load` and returns `set(data)`;
only `json.JSONDecodeError` is caught.  The constructors:

* `absent`     : the file does not exist (`os.path.exists` false);
* `malformed`  : the contents fail JSON parsing (`json.JSONDecodeError`);
* `arr l`      : the contents parse as a JSON array of strings `l`
                 (the only shape `save_posted_entry` ever writes);
* `num n`      : the contents parse as a bare JSON number.  `json.load`
                 succeeds, and the following `len(data)` raises an uncaught
                 `TypeError`, so the Python function raises.

Python sets are modelled as duplicate-free lists: `set(data)` becomes
`l.dedup`; membership and size are list membership and length.  `none`
results model a propagated Python exception.
-/

/-- State of the backing JSON file of the dedup store. -/
inductive FileContent where
  | absent : FileContent
  | malformed : FileContent
  | arr : List String → FileContent
  | num : Int → FileContent
deriving DecidableEq

/-- `load_posted_entries` (storage.py lines 8-24): absent file or JSON
decode error yield the empty set; a JSON array yields `set(data)`; a bare
JSON number makes `len(data)` raise an uncaught `TypeError` (`none`). -/
def load_posted_entries : FileContent → Option (List String)
  | FileContent.absent => some []
  | FileContent.malformed => some []
  | FileContent.arr l => some l.dedup
  | FileContent.num _ => none

/-- Outcome of the write attempt inside `save_posted_entry`.  The source
runs `open(filepath, "w", encoding="utf-8")` — which truncates the file the
moment it succeeds — and then `json.dump` inside the `with`, all in a `try`
whose handler only logs.  Three disk-relevant outcomes:

* `ok`       : open, dump and close all succeed; the file now holds the
               updated JSON array.  (A failure after the dump completed,
               e.g. in the success log line, leaves this same disk state
               and is subsumed by `ok`.)
* `openFail` : `open` itself raises, before truncating: the file is
               untouched.
* `dumpFail` : `open` succeeded and truncated the file, then the dump or
               close failed: the file is left empty or holding a proper
               prefix of the JSON array text, neither of which parses
               (every proper prefix of a serialized JSON array is invalid
               JSON), so the disk state is `malformed` and the next load
               returns the empty set. -/
inductive WriteOutcome where
  | ok : WriteOutcome
  | openFail : WriteOutcome
  | dumpFail : WriteOutcome
deriving DecidableEq

/-- `save_posted_entry` (storage.py lines 26-40).  It first runs
`load_posted_entries` (outside any try, so its exception propagates:
`none`).  If the key is already present it returns before any write, with
the "URL already exists" log as the `true` signal and the file untouched.
Otherwise it adds the key and rewrites the whole file; `w` is the oracle
for the write attempt (see `WriteOutcome`), whose failures are caught and
only logged, so the function returns normally in all three cases.  The
written JSON array is the updated set in some iteration order, fixed here
as old-then-new. -/
def save_posted_entry (newUrl : String) (fs : FileContent)
    (w : WriteOutcome) : Option (FileContent × Bool) :=
  match load_posted_entries fs with
  | none => none
  | some entries =>
    if newUrl ∈ entries then some (fs, true)
    else
      match w with
      | WriteOutcome.ok => some (FileContent.arr (entries ++ [newUrl]), false)
      | WriteOutcome.openFail => some (fs, false)
      | WriteOutcome.dumpFail => some (FileContent.malformed, false)

/-- A run of later appends in which no write fails between truncation and
dump: each pair is (key, opened), `true` meaning the write completes
(`WriteOutcome.ok`), `false` meaning `open` fails before truncating
(`WriteOutcome.openFail`).  Dump-stage failures are excluded here because
they destroy the persisted state (see the C6 counterexample).  A
propagated exception (`none`) aborts the run. -/
def applySavesNoTruncate : List (String × Bool) → FileContent →
    Option FileContent
  | [], fs => some fs
  | (k, opened) :: ops, fs =>
    match save_posted_entry k fs
        (if opened then WriteOutcome.ok else WriteOutcome.openFail) with
    | none => none
    | some p => applySavesNoTruncate ops p.1

/-- One append whose write does not fail after truncation preserves every
key already present, and leaves the store loadable. -/
theorem save_preserves_mem (k x : String) (w : WriteOutcome)
    (fs fs1 : FileContent) (b : Bool)
    (hw : ¬w = WriteOutcome.dumpFail)
    (h : save_posted_entry k fs w = some (fs1, b))
    (hx : x ∈ (load_posted_entries fs).getD []) :
    (load_posted_entries fs1).isSome = true ∧
    x ∈ (load_posted_entries fs1).getD [] := by
  unfold save_posted_entry at h
  cases hl : load_posted_entries fs with
  | none => rw [hl] at h; exact absurd h (by simp)
  | some s =>
    rw [hl] at h
    rw [hl] at hx
    simp only [Option.getD_some] at hx
    by_cases hk : k ∈ s
    · simp only [if_pos hk, Option.some.injEq, Prod.mk.injEq] at h
      rw [← h.1, hl]
      exact ⟨rfl, by simpa using hx⟩
    · simp only [if_neg hk] at h
      cases w with
      | ok =>
        simp only [Option.some.injEq, Prod.mk.injEq] at h
        rw [← h.1]
        refine ⟨rfl, ?_⟩
        simp only [load_posted_entries, Option.getD_some]
        rw [List.mem_dedup]
        exact List.mem_append_left _ hx
      | openFail =>
        simp only [Option.some.injEq, Prod.mk.injEq] at h
        rw [← h.1, hl]
        exact ⟨rfl, by simpa using hx⟩
      | dumpFail => exact absurd rfl hw

/-- A run of appends with no dump-stage failure preserves every key already
present in a loadable store. -/
theorem applySaves_preserves_mem (x : String) (ops : List (String × Bool)) :
    ∀ (fs fs2 : FileContent), applySavesNoTruncate ops fs = some fs2 →
    x ∈ (load_posted_entries fs).getD [] →
    (load_posted_entries fs2).isSome = true ∧
    x ∈ (load_posted_entries fs2).getD [] := by
  induction ops with
  | nil =>
    intro fs fs2 h hx
    simp only [applySavesNoTruncate, Option.some.injEq] at h
    subst h
    constructor
    · cases hl : load_posted_entries fs with
      | none => rw [hl] at hx; exact absurd hx (by simp)
      | some s => simp
    · exact hx
  | cons p rest ih =>
    intro fs fs2 h hx
    obtain ⟨k, opened⟩ := p
    simp only [applySavesNoTruncate] at h
    cases hs : save_posted_entry k fs
        (if opened then WriteOutcome.ok else WriteOutcome.openFail) with
    | none => rw [hs] at h; exact absurd h (by simp)
    | some q =>
      rw [hs] at h
      have hw : ¬(if opened then WriteOutcome.ok else WriteOutcome.openFail)
          = WriteOutcome.dumpFail := by
        cases opened <;> simp
      have step := save_preserves_mem k x _ fs q.1 q.2 hw (by rw [hs]) hx
      exact ih q.1 fs2 h step.2

/-- Claim C4: append is idempotent.  Running `save_posted_entry k` twice
with completing writes (the second run sequenced on the file state the
first produced, exceptions propagating) equals running it once except that
the second run reports the "already exists" signal: the persisted file,
hence the membership and size of the persisted set, is unchanged and not
rewritten.  And on any store already containing `k`, one append is a no-op
returning the signal. -/
theorem claim_c4_append_idempotent (k : String) (fs : FileContent)
    (s : List String) :
    ((save_posted_entry k fs WriteOutcome.ok).bind
        fun p => save_posted_entry k p.1 WriteOutcome.ok)
      = (save_posted_entry k fs WriteOutcome.ok).map (fun p => (p.1, true)) ∧
    save_posted_entry k (FileContent.arr (k :: s)) WriteOutcome.ok
      = some (FileContent.arr (k :: s), true) := by
  constructor
  · cases hl : load_posted_entries fs with
    | none => simp [save_posted_entry, hl]
    | some s0 =>
      by_cases hk : k ∈ s0
      · unfold save_posted_entry
        rw [hl]
        simp [hk, hl]
      · unfold save_posted_entry
        rw [hl]
        have hmem : k ∈ (s0 ++ [k]).dedup := by
          rw [List.mem_dedup]
          simp
        simp [hk, hmem, load_posted_entries]
  · simp [save_posted_entry, load_posted_entries, List.mem_dedup]

/-- Claim C5 (amended): `load_posted_entries` returns the empty set when the
file is absent or its contents fail JSON parsing, and `set(data)` of a
parsed string array; but it is not exception-free on every backing state
(see the counterexample). -/
theorem claim_c5_load_amended (l : List String) :
    load_posted_entries FileContent.absent = some [] ∧
    load_posted_entries FileContent.malformed = some [] ∧
    load_posted_entries (FileContent.arr l) = some l.dedup :=
  ⟨rfl, rfl, rfl⟩

/-- Claim C5 counterexample: a backing file holding the well-formed JSON
number 5 is malformed as a serialization of the entry list, yet
`load_posted_entries` raises an uncaught `TypeError` at `len(data)` (only
`json.JSONDecodeError` is caught) instead of returning the empty set. -/
theorem claim_c5_counterexample :
    load_posted_entries (FileContent.num 5) = none := rfl

/-- Claim C6 (amended): durability round-trip.  After a successful
`save_posted_entry k`, the key `k` is in the set returned by
`load_posted_entries` after any further run of appends in which no write
fails between truncation and dump (each later write either completes or
fails at `open`, before the file is truncated).  The unrestricted claim —
`k` present on *every* later load — is false of the program: a later
append whose `json.dump` fails after `open("w")` truncated the file
destroys the persisted state (see the counterexample). -/
theorem claim_c6_durability (k : String) (fs fs1 : FileContent) (b1 : Bool)
    (ops : List (String × Bool)) (fs2 : FileContent)
    (h1 : save_posted_entry k fs WriteOutcome.ok = some (fs1, b1))
    (h2 : applySavesNoTruncate ops fs1 = some fs2) :
    (load_posted_entries fs2).isSome = true ∧
    k ∈ (load_posted_entries fs2).getD [] := by
  have base : k ∈ (load_posted_entries fs1).getD [] := by
    unfold save_posted_entry at h1
    cases hl : load_posted_entries fs with
    | none => rw [hl] at h1; exact absurd h1 (by simp)
    | some s =>
      rw [hl] at h1
      by_cases hk : k ∈ s
      · simp only [if_pos hk, Option.some.injEq, Prod.mk.injEq] at h1
        rw [← h1.1, hl]
        simpa using hk
      · simp only [if_neg hk] at h1
        simp only [Option.some.injEq, Prod.mk.injEq] at h1
        rw [← h1.1]
        simp [load_posted_entries, List.mem_dedup]
  exact applySaves_preserves_mem k ops fs1 fs2 h2 base

/-- Witness for C6 at a concrete store: append "u1" to an absent file, then
run three further appends (one completing, one failing at `open`, one
finding its key present); "u1" is still in the loaded set. -/
theorem claim_c6_witness :
    save_posted_entry "u1" FileContent.absent WriteOutcome.ok
      = some (FileContent.arr ["u1"], false) ∧
    applySavesNoTruncate [("u2", true), ("u3", false), ("u1", true)]
        (FileContent.arr ["u1"]) = some (FileContent.arr ["u1", "u2"]) ∧
    (load_posted_entries (FileContent.arr ["u1", "u2"])).isSome = true ∧
    "u1" ∈ (load_posted_entries (FileContent.arr ["u1", "u2"])).getD [] := by
  refine ⟨by decide, by decide, ?_, ?_⟩
  · exact (claim_c6_durability "u1" FileContent.absent (FileContent.arr ["u1"])
      false [("u2", true), ("u3", false), ("u1", true)]
      (FileContent.arr ["u1", "u2"]) (by decide) (by decide)).1
  · exact (claim_c6_durability "u1" FileContent.absent (FileContent.arr ["u1"])
      false [("u2", true), ("u3", false), ("u1", true)]
      (FileContent.arr ["u1", "u2"]) (by decide) (by decide)).2

/-- Claim C6 counterexample: "u1" is successfully appended to an absent
file, then a later append of "u2" fails during `json.dump`, after
`open("w")` truncated the file; the append itself returns normally (its
handler only logs), but the backing file is left unparseable and the next
`load_posted_entries` returns the empty set — "u1" is gone.  A key
successfully appended is not present on every later load. -/
theorem claim_c6_counterexample :
    save_posted_entry "u1" FileContent.absent WriteOutcome.ok
      = some (FileContent.arr ["u1"], false) ∧
    save_posted_entry "u2" (FileContent.arr ["u1"]) WriteOutcome.dumpFail
      = some (FileContent.malformed, false) ∧
    load_posted_entries FileContent.malformed = some [] ∧
    ¬("u1" ∈ ([] : List String)) := by decide

/-- Claim C10 (amended): on every backing state whose load succeeds, append
never propagates an exception from the write step — all three write
outcomes return normally — and the write outcome does not change the value
the caller receives (the "already exists" signal is the only returned
observation, identical under write success and failure, so a durable
append is indistinguishable from a failed one).  The persisted state on a
failed write depends on where the write failed: a failure at `open` leaves
the file unchanged, but a failure during `json.dump` — after `open("w")`
already truncated the file — leaves it unparseable (`malformed`), not
unchanged, whenever a write was attempted at all.  The load step inside
append can still raise (see the counterexample). -/
theorem claim_c10_write_failure (k : String) (fs : FileContent)
    (s : List String) (w : WriteOutcome)
    (h : load_posted_entries fs = some s) :
    (save_posted_entry k fs w).isSome = true ∧
    (save_posted_entry k fs WriteOutcome.openFail).map Prod.fst = some fs ∧
    (save_posted_entry k fs WriteOutcome.dumpFail).map Prod.fst
      = some (if k ∈ s then fs else FileContent.malformed) ∧
    (save_posted_entry k fs w).map Prod.snd
      = (save_posted_entry k fs WriteOutcome.ok).map Prod.snd := by
  unfold save_posted_entry
  rw [h]
  by_cases hk : k ∈ s
  · cases w <;> simp [hk]
  · cases w <;> simp [hk]

/-- Witness for C10 at a concrete store: appending to an absent file with a
dump-stage write failure raises nothing, leaves the file unparseable (the
open-stage failure leaves it absent), and returns the same signal as a
successful write would. -/
theorem claim_c10_witness :
    load_posted_entries FileContent.absent = some [] ∧
    ((save_posted_entry "u1" FileContent.absent
        WriteOutcome.dumpFail).isSome = true ∧
     (save_posted_entry "u1" FileContent.absent
        WriteOutcome.openFail).map Prod.fst = some FileContent.absent ∧
     (save_posted_entry "u1" FileContent.absent
        WriteOutcome.dumpFail).map Prod.fst
       = some (if "u1" ∈ ([] : List String) then FileContent.absent
               else FileContent.malformed) ∧
     (save_posted_entry "u1" FileContent.absent
        WriteOutcome.dumpFail).map Prod.snd
       = (save_posted_entry "u1" FileContent.absent
            WriteOutcome.ok).map Prod.snd) :=
  ⟨rfl, claim_c10_write_failure "u1" FileContent.absent []
    WriteOutcome.dumpFail rfl⟩

/-- Claim C10 counterexample: on a backing file holding the JSON number 5,
`save_posted_entry` propagates the `TypeError` raised by its internal
`load_posted_entries` call (which sits outside any try block), for every
key: the claim that append never propagates an exception is false. -/
theorem claim_c10_counterexample :
    save_posted_entry "u1" (FileContent.num 5) WriteOutcome.ok = none := rfl

/-!
## Post composers

Two composer iterations exist in the repository:

* `create_bluesky_post` (src/src/post_to_bluesky.py lines 122-161): builds
  the text as link, blank line, joined hashtags, and fills facet
  `byteStart`/`byteEnd` with **character** indices (`content.find` result
  and Python `len`, both character counts).
* `create_post_content` (src/src/agents/bluesky_agent.py lines 88-148):
  builds the text as emoji-marked title, description and cleaned hashtags,
  and converts each character index to a byte offset by re-encoding the
  prefix (`len(content[:i].encode())`).

The string literals of the emoji table in bluesky_agent.py are mojibake:
the file stores the UTF-8 bytes of the original emoji re-decoded through a
legacy codec, so each "emoji" is a short run of ordinary BMP characters.
The code points below are exactly the ones Python reads from the file.
-/

/-- A candidate item as consumed by the composers: `entry.get` on the keys
title, description, url, link (absent keys modelled by `none`/empty). -/
structure Entry where
  title : PyStr
  description : PyStr
  url : Option PyStr
  link : Option PyStr
deriving DecidableEq

/-- A facet feature: `app.bsky.richtext.facet#link` with its `uri` payload,
or `app.bsky.richtext.facet#tag` with its bare `tag` payload. -/
inductive Feature where
  | flink : PyStr → Feature
  | ftag : PyStr → Feature
deriving DecidableEq

/-- One annotation span: the `index.byteStart`/`index.byteEnd` pair and the
single feature the source code attaches. -/
structure Facet where
  byteStart : Nat
  byteEnd : Nat
  feature : Feature
deriving DecidableEq

/-- Is the facet a link span? -/
def isLinkFacet (f : Facet) : Bool :=
  match f.feature with
  | Feature.flink _ => true
  | Feature.ftag _ => false

/-- Is the facet a hashtag span? -/
def isTagFacet (f : Facet) : Bool :=
  match f.feature with
  | Feature.flink _ => false
  | Feature.ftag _ => true

/-- Decode a list of code points into a string. -/
def chs (l : List Nat) : PyStr := l.map Char.ofNat

/-- The `emoji_map` of `get_emoji_for_title` (bluesky_agent.py lines
152-166), an insertion-ordered dict embedded as an ordered association
list; values are the exact (mojibake) code points stored in the file. -/
def emoji_map : List (PyStr × PyStr) :=
  [ ("fasting".toList, chs [0xE2, 0xB1, 0xEF, 0xB8])
  , ("aging".toList, chs [0xE2, 0x152, 0x203A])
  , ("longevity".toList, chs [0x11F, 0x178, 0xA7, 0xAC])
  , ("health".toList, chs [0x11F, 0x178, 0x2019, 0x161])
  , ("nutrition".toList, chs [0x11F, 0x178, 0xA5, 0x2014])
  , ("supplement".toList, chs [0x11F, 0x178, 0x2019, 0x160])
  , ("news".toList, chs [0x11F, 0x178, 0x201C, 0xB0])
  , ("roundup".toList, chs [0x11F, 0x178, 0x201C, 0x2026])
  , ("cardiac".toList, chs [0xE2, 0xA4, 0xEF, 0xB8])
  , ("diabetes".toList, chs [0x11F, 0x178, 0x2019, 0x2030])
  , ("ketones".toList, chs [0x11F, 0x178, 0x2019, 0xAA])
  , ("exercise".toList, chs [0x11F, 0x178, 0x2019, 0xAA])
  , ("muscle".toList, chs [0x11F, 0x178, 0x2019, 0xAA]) ]

/-- The default leading marker of `get_emoji_for_title`. -/
def default_emoji : PyStr := chs [0x11F, 0x178, 0x201D, 0xAC]

/-- First-match-wins scan of the keyword table: `keyword.lower() in
title.lower()`. -/
def emojiLookup (titleLower : PyStr) : List (PyStr × PyStr) → PyStr
  | [] => default_emoji
  | (kw, em) :: rest =>
    if (findSub titleLower (lowerStr kw)).isSome then em
    else emojiLookup titleLower rest

/-- `get_emoji_for_title` (bluesky_agent.py lines 150-174). -/
def get_emoji_for_title (title : PyStr) : PyStr :=
  emojiLookup (lowerStr title) emoji_map

/-- The hashtag cleaning step of `create_post_content` (lines 106-112):
strip every leading hash, split on whitespace, capitalize each word, join,
re-prefix one hash. -/
def cleanTag (tag : PyStr) : PyStr :=
  let noHash := tag.dropWhile (· = '#')
  '#' :: ((pySplitWs noHash).map pyCapitalize).flatten

/-- The first three hashtags, cleaned (`for tag in hashtags[:3]`). -/
def cleanedHashtags (hashtags : List PyStr) : List PyStr :=
  (hashtags.take 3).map cleanTag

/-- The display text assembled by `create_post_content` (line 115):
emoji-marked title line, stripped description and joined cleaned hashtags,
separated by blank lines.  No truncation of any kind is applied. -/
def assembleContent (entry : Entry) (hashtags : List PyStr) : PyStr :=
  get_emoji_for_title entry.title ++ [' '] ++ entry.title ++
    ['\n', '\n'] ++ pyStrip entry.description ++
    ['\n', '\n'] ++ joinSep [' '] (cleanedHashtags hashtags)

/-- One step of the facet loop of `create_post_content` (lines 121-138):
when the cleaned tag occurs in the content, the character position is
converted to a byte position by re-encoding the character prefix
(`len(content[:i].encode())`), and the span covers the UTF-8 byte length of
the tag; the payload is the tag without its hashes. -/
def mkByteTagFacet (content : PyStr) (tag : PyStr) : Option Facet :=
  match findSub content tag with
  | some i =>
    some { byteStart := utf8Len (content.take i)
         , byteEnd := utf8Len (content.take i) + utf8Len tag
         , feature := Feature.ftag (tag.dropWhile (· = '#')) }
  | none => none

/-- The facet loop of `create_post_content`: tags absent from the content
are silently skipped. -/
def mkTagFacets (content : PyStr) (cleaned : List PyStr) : List Facet :=
  cleaned.filterMap (mkByteTagFacet content)

/-- `create_post_content` (bluesky_agent.py lines 88-148).  The whole body
sits in a try whose handler returns `(None, None, None)`; every step of the
body is total string manipulation except the embed-card fetch, and
`fetch_embed_url_card` catches all its own exceptions (returning Python
None), so the handler is unreachable and the function always returns a
built post.  `embedO` is the oracle for the embed-card collaborator
(`none` = card fetch failed or returned None); the card is only requested
when the link is non-empty (`if link else None`, line 141).  Note: the link
is never placed in the text and no link facet is ever created, and no
reachability check is performed here. -/
def create_post_content (entry : Entry) (hashtags : List PyStr)
    (embedO : Option Unit) : Option (PyStr × List Facet × Option Unit) :=
  let link := entry.url.getD (entry.link.getD [])
  let content := assembleContent entry hashtags
  some (content, mkTagFacets content (cleanedHashtags hashtags),
        if link = [] then none else embedO)

/-- One step of the hashtag-facet loop of `create_bluesky_post`
(post_to_bluesky.py lines 144-156): bounds are `content.find(hashtag)` and
that index plus `len(hashtag)` — both character counts used directly as
byte offsets; the payload drops the first character of the hashtag. -/
def mkCharTagFacet (content : PyStr) (h : PyStr) : Option Facet :=
  match findSub content h with
  | some i =>
    some { byteStart := i, byteEnd := i + h.length
         , feature := Feature.ftag (h.drop 1) }
  | none => none

/-- `create_bluesky_post` (post_to_bluesky.py lines 122-161): the content is
the link, a blank line, and the first three hashtags joined by spaces.  One
link facet is always appended with `byteStart = 0` and `byteEnd =
len(link)` — a character count used as a byte offset — followed by the
hashtag facets of `mkCharTagFacet`. -/
def create_bluesky_post (entry : Entry) (hashtags : List PyStr) :
    PyStr × List Facet :=
  let link := entry.link.getD []
  let content := link ++ ['\n', '\n'] ++ joinSep [' '] (hashtags.take 3)
  let linkFacet : Facet :=
    { byteStart := 0, byteEnd := link.length, feature := Feature.flink link }
  (content, linkFacet :: (hashtags.take 3).filterMap (mkCharTagFacet content))

/-- The publish-and-record step of main.py (lines 60-73): when the composer
returned a skip (`content is None`) the function returns before posting;
otherwise it posts, and records via `save_posted_entry` only when the post
call succeeded (`postOk`).  Result: (published, recorded). -/
def mainPostStep (res : Option (PyStr × List Facet × Option Unit))
    (postOk : Bool) : Bool × Bool :=
  match res with
  | none => (false, false)
  | some _ => if postOk then (true, true) else (false, false)

/-- `truncate_to_graphemes` (bluesky_agent.py lines 81-86), with the
grapheme segmentation `regex.findall` of the pattern backslash-X abstracted
as the parameter `seg` (UAX #29 extended grapheme clusters): if the cluster
count is within the limit the text is returned unchanged, else the first
`limit` clusters are rejoined. -/
def truncate_to_graphemes (seg : PyStr → List PyStr) (text : PyStr)
    (limit : Nat) : PyStr :=
  let graphemes := seg text
  if graphemes.length ≤ limit then text else (graphemes.take limit).flatten

/-- Cluster count of a text containing no combining marks, no variation
selectors, no zero-width joiners, no emoji modifiers and no carriage
returns: under UAX #29 every remaining character is its own extended
grapheme cluster, so the count is the character count.  Models
`len(regex.findall(...))` of `count_graphemes` on such texts (all texts
this development evaluates it on). -/
def graphemeCountSimple (text : PyStr) : Nat := text.length

/-!
## Tag generator and validators (src/src/agents/gemini_agent.py,
src/src/agents/health_news_agent.py)

The Gemini model is an external collaborator: its reply enters as the
oracle parameter.  For `generate_hashtags` the oracle is the list of lines
of `response.text.strip().split(chr(10))` when the call succeeds, `none`
when it raises.  For the validators the oracle is
`response.text.strip().lower()` when the (retried) call succeeds, `none`
when it still raises after the retries are exhausted.
-/

/-- The per-line cleaning of `generate_hashtags` (gemini_agent.py lines
48-51): `tag.strip().replace(" ", "")`, then prefix a hash when the result
does not already start with one. -/
def cleanRespTag (t : PyStr) : PyStr :=
  let t1 := (pyStrip t).filter (fun c => !(c = ' '))
  match t1 with
  | '#' :: rest => '#' :: rest
  | other => '#' :: other

/-- The local fallback of `generate_hashtags` (lines 55-56 and 60-61): the
first three whitespace-separated words of the title that satisfy
`word.isalnum()`, each lowercased and prefixed with a hash. -/
def fallbackTags (title : PyStr) : List PyStr :=
  ((pySplitWs title).take 3).filterMap fun w =>
    if !(w = []) && w.all pyIsAlnumChar then some ('#' :: lowerStr w)
    else none

/-- `generate_hashtags` (gemini_agent.py lines 30-61).  On a successful
model call the reply lines are cleaned and filtered by the anchored regex
`#[a-zA-Z0-9]+`; if none survives the fallback is used; at most five are
returned.  When the model call raises, the fallback is returned directly
(without the five-element cut, which its three-word bound makes moot). -/
def generate_hashtags (title : PyStr) (response : Option (List PyStr)) :
    List PyStr :=
  match response with
  | none => fallbackTags title
  | some lines =>
    let cleaned := (lines.map cleanRespTag).filter matchesTagPattern
    (if cleaned = [] then fallbackTags title else cleaned).take 5

/-- A Python value that is either a bool or None, for the return of the
gemini_agent validator variant. -/
inductive PyBoolOrNone where
  | pyTrue : PyBoolOrNone
  | pyFalse : PyBoolOrNone
  | pyNone : PyBoolOrNone
deriving DecidableEq

/-- Python truthiness of such a value: None is falsy. -/
def pyTruthy : PyBoolOrNone → Bool
  | PyBoolOrNone.pyTrue => true
  | PyBoolOrNone.pyFalse => false
  | PyBoolOrNone.pyNone => false

namespace GeminiAgent

/-- `validate_article_with_gemini` (gemini_agent.py lines 79-107): on a
successful reply, the boolean `answer == "yes"`.  When the call still
raises after `retry_with_backoff` gives up, the handler logs "Defaulting to
accepting article" but executes a bare `return`, so the function returns
Python None — not True. -/
def validate_article_with_gemini (answer : Option PyStr) : PyBoolOrNone :=
  match answer with
  | some a => if a = "yes".toList then PyBoolOrNone.pyTrue
              else PyBoolOrNone.pyFalse
  | none => PyBoolOrNone.pyNone

end GeminiAgent

namespace HealthNewsAgent

/-- `validate_article_with_gemini` (health_news_agent.py lines 104-128): on
a successful reply, the boolean `answer == "yes"`; on an exception the
handler returns False. -/
def validate_article_with_gemini (answer : Option PyStr) : Bool :=
  match answer with
  | some a => a = "yes".toList
  | none => false

end HealthNewsAgent


/-!
## Claim theorems for the composers
-/

/-- Named projections of a built post, used to state claims without inline
lambdas. -/
def textOfResult (r : PyStr × List Facet × Option Unit) : PyStr := r.1

/-- The link spans among the facets of a built post. -/
def linkFacetsOfResult (r : PyStr × List Facet × Option Unit) : List Facet :=
  r.2.1.filter isLinkFacet

/-- The embed card of a built post. -/
def embedOfResult (r : PyStr × List Facet × Option Unit) : Option Unit :=
  r.2.2

/-- The grapheme-cluster count of the text of a built post (simple-text
model, see `graphemeCountSimple`). -/
def graphemeCountOfResult (r : PyStr × List Facet × Option Unit) : Nat :=
  graphemeCountSimple r.1

/-- Hashtag facets carry no link feature: filtering the character-indexed
tag facets of `create_bluesky_post` for link spans leaves nothing. -/
theorem charTagFacets_no_link (content : PyStr) (tags : List PyStr) :
    (tags.filterMap (mkCharTagFacet content)).filter isLinkFacet = [] := by
  induction tags with
  | nil => rfl
  | cons t ts ih =>
    rw [List.filterMap_cons]
    cases hf : mkCharTagFacet content t with
    | none => exact ih
    | some fc =>
      have hlf : isLinkFacet fc = false := by
        unfold mkCharTagFacet at hf
        cases hfind : findSub content t with
        | none => rw [hfind] at hf; exact absurd hf (by simp)
        | some i =>
          rw [hfind] at hf
          simp only [Option.some.injEq] at hf
          rw [← hf]
          rfl
      rw [List.filter_cons_of_neg (by simp [hlf])]
      exact ih

/-- The byte-indexed tag facets of `create_post_content` likewise contain
no link span. -/
theorem byteTagFacets_no_link (content : PyStr) (cleaned : List PyStr) :
    (mkTagFacets content cleaned).filter isLinkFacet = [] := by
  unfold mkTagFacets
  induction cleaned with
  | nil => rfl
  | cons t ts ih =>
    rw [List.filterMap_cons]
    cases hf : mkByteTagFacet content t with
    | none => exact ih
    | some fc =>
      have hlf : isLinkFacet fc = false := by
        unfold mkByteTagFacet at hf
        cases hfind : findSub content t with
        | none => rw [hfind] at hf; exact absurd hf (by simp)
        | some i =>
          rw [hfind] at hf
          simp only [Option.some.injEq] at hf
          rw [← hf]
          rfl
      rw [List.filter_cons_of_neg (by simp [hlf])]
      exact ih

/-- RSS entry for C1 whose link holds a two-byte character before the tag. -/
def entryC1 : Entry :=
  { title := "T".toList, description := [], url := none
  , link := some "http://a.é".toList }

/-- Hashtag input for C1. -/
def tagsC1 : List PyStr := ["#Tag".toList]

/-- Claim C1: false of the code — `create_bluesky_post` fills `byteStart`
with the character index, not the UTF-8 byte length of the prefix.  On the
entry with link "http://a.é" and hashtag "#Tag", the emitted hashtag facet
is [12, 16) (character indices), while the UTF-8 byte length of the
12-character prefix before the tag is 13 (the é takes two bytes); the
byte-reencoding method of `create_post_content` (`mkTagFacets`), applied to
the same text and tag, yields the span [13, 17) the claim requires. -/
theorem claim_c1_char_byte_conflation :
    ((create_bluesky_post entryC1 tagsC1).2.filter isTagFacet)
      = [{ byteStart := 12, byteEnd := 16
         , feature := Feature.ftag "Tag".toList }] ∧
    utf8Len ((create_bluesky_post entryC1 tagsC1).1.take 12) = 13 ∧
    mkTagFacets (create_bluesky_post entryC1 tagsC1).1 (cleanedHashtags tagsC1)
      = [{ byteStart := 13, byteEnd := 17
         , feature := Feature.ftag "Tag".toList }] ∧
    ¬(12 = 13) := by decide

/-- Claim C2 (amended): `create_bluesky_post` emits exactly one link span,
with payload the link, `byteStart = 0` and `byteEnd = len(link)` in
characters; the link occurs verbatim at the start of the text, so when the
link is ASCII (character count = UTF-8 byte count) that byte range exactly
bounds the UTF-8 encoding of the link substring.  `create_post_content`
(the health-pipeline composer) emits no link span at all. -/
theorem claim_c2_link_span (e : Entry) (hs : List PyStr)
    (h : allAscii (e.link.getD []) = true) :
    ((create_bluesky_post e hs).2.filter isLinkFacet)
      = [{ byteStart := 0, byteEnd := utf8Len (e.link.getD [])
         , feature := Feature.flink (e.link.getD []) }] ∧
    (create_bluesky_post e hs).1.take (e.link.getD []).length
      = e.link.getD [] ∧
    utf8Len (e.link.getD []) = (e.link.getD []).length ∧
    (create_post_content e hs none).map linkFacetsOfResult = some [] := by
  have hlen := utf8Len_of_allAscii (e.link.getD []) h
  refine ⟨?_, ?_, hlen, ?_⟩
  · unfold create_bluesky_post
    rw [List.filter_cons_of_pos (by rfl)]
    rw [charTagFacets_no_link]
    rw [hlen]
  · simp only [create_bluesky_post]
    rw [List.append_assoc]
    exact List.take_left _ _
  · show some (List.filter isLinkFacet
        (mkTagFacets (assembleContent e hs) (cleanedHashtags hs))) = some []
    rw [byteTagFacets_no_link]

/-- RSS entry of the spec example for the C2 witness. -/
def entryC2w : Entry :=
  { title := "Test".toList, description := [], url := none
  , link := some "http://example.com/a".toList }

/-- Hashtags of the spec example for the C2 witness. -/
def tagsC2w : List PyStr := ["#Health".toList, "#News".toList]

/-- Witness for C2 at the spec example: ASCII link, one exactly-bounding
link span, no link span from `create_post_content`. -/
theorem claim_c2_witness :
    allAscii (entryC2w.link.getD []) = true ∧
    (((create_bluesky_post entryC2w tagsC2w).2.filter isLinkFacet)
        = [{ byteStart := 0, byteEnd := utf8Len (entryC2w.link.getD [])
           , feature := Feature.flink (entryC2w.link.getD []) }] ∧
     (create_bluesky_post entryC2w tagsC2w).1.take
        (entryC2w.link.getD []).length = entryC2w.link.getD [] ∧
     utf8Len (entryC2w.link.getD []) = (entryC2w.link.getD []).length ∧
     (create_post_content entryC2w tagsC2w none).map linkFacetsOfResult
        = some []) :=
  ⟨by decide, claim_c2_link_span entryC2w tagsC2w (by decide)⟩

/-- RSS entry for the C2 counterexample: a non-ASCII link. -/
def entryC2x : Entry :=
  { title := [], description := [], url := none
  , link := some "http://a.é".toList }

/-- Claim C2 counterexample: for the link "http://a.é" (10 characters,
11 UTF-8 bytes) the emitted link span ends at byte 10 — the character
count — so its byte range does not exactly bound the UTF-8 encoding of the
link substring, whose range is [0, 11). -/
theorem claim_c2_counterexample :
    ((create_bluesky_post entryC2x []).2.filter isLinkFacet)
      = [{ byteStart := 0, byteEnd := 10
         , feature := Feature.flink "http://a.é".toList }] ∧
    utf8Len "http://a.é".toList = 11 ∧
    ¬(10 = 11) := by decide

/-- Claim C3 (amended): `create_post_content` never returns the skip result
for any input — the `(None, None, None)` handler is only reachable from an
internal exception and every modelled step is total (the embed fetch
catches its own errors); in particular an empty or unreachable link does
not produce a skip (no reachability check exists in the composer; that
filtering lives in the upstream article selection).  And when the publish
step of main.py does receive a skip result, it neither publishes nor
records the item. -/
theorem claim_c3_skip_amended (e : Entry) (hs : List PyStr)
    (em : Option Unit) (postOk : Bool) :
    (create_post_content e hs em).isSome = true ∧
    mainPostStep none postOk = (false, false) :=
  ⟨rfl, rfl⟩

/-- Entry for the C3 counterexample: the url key holds an empty string. -/
def entryC3 : Entry :=
  { title := "T".toList, description := "D".toList
  , url := some [], link := none }

/-- Claim C3 counterexample: on an entry whose link is empty,
`create_post_content` does not return a skip result — it returns a built
post (with the embed card merely omitted), refuting "returns a skip result
exactly when the link is empty, ...". -/
theorem claim_c3_counterexample :
    (create_post_content entryC3 ["#Health".toList] (some ())).isSome
      = true ∧
    (create_post_content entryC3 ["#Health".toList] (some ())).map
      embedOfResult = some none := by decide

/-- Claim C7 (amended): the helper `truncate_to_graphemes` never splits a
cluster — for any valid segmentation of the text its output is the
concatenation of a prefix of the cluster list, every cluster whole and in
original order — but `create_post_content` never invokes it: the composer
applies no length limit, and its text is always the full assembly. -/
theorem claim_c7_truncation (seg : PyStr → List PyStr) (text : PyStr)
    (limit : Nat) (e : Entry) (hs : List PyStr) (em : Option Unit)
    (hseg : (seg text).flatten = text) :
    truncate_to_graphemes seg text limit = ((seg text).take limit).flatten ∧
    (create_post_content e hs em).map textOfResult
      = some (assembleContent e hs) := by
  constructor
  · unfold truncate_to_graphemes
    by_cases hl : (seg text).length ≤ limit
    · rw [if_pos hl, List.take_of_length_le hl, hseg]
    · rw [if_neg hl]
  · rfl

/-- The one-cluster-per-character segmentation, a valid segmentation for
the witness text. -/
def singletonSeg (t : PyStr) : List PyStr := t.map (fun c => [c])

/-- Small entry for the C7 witness. -/
def entryC7w : Entry :=
  { title := "T".toList, description := "D".toList
  , url := none, link := none }

/-- Witness for C7 at a concrete segmentation, text, limit and entry. -/
theorem claim_c7_witness :
    (singletonSeg "abc".toList).flatten = "abc".toList ∧
    (truncate_to_graphemes singletonSeg "abc".toList 2
        = ((singletonSeg "abc".toList).take 2).flatten ∧
     (create_post_content entryC7w ["#A".toList] none).map textOfResult
        = some (assembleContent entryC7w ["#A".toList])) :=
  ⟨by decide, claim_c7_truncation singletonSeg "abc".toList 2 entryC7w
    ["#A".toList] none (by decide)⟩

/-- Entry for the C7 counterexample: a 400-character body. -/
def entryC7 : Entry :=
  { title := "T".toList, description := List.replicate 400 'a'
  , url := some "http://e.co".toList, link := none }

set_option maxRecDepth 4000 in
/-- Claim C7 counterexample: the composed text of this entry consists of
412 grapheme clusters (plain characters, each its own cluster), far above
the 300-grapheme platform limit of Bluesky, and the composer returns it
whole: no maximum length over grapheme clusters is enforced. -/
theorem claim_c7_counterexample :
    (create_post_content entryC7 ["#A".toList] none).map
      graphemeCountOfResult = some 412 ∧
    300 < 412 := by decide

/-- Claim C9: the code's own comment and log line say the gemini_agent
validator defaults to accepting on persistent API failure, and the claim
and health_news_agent variant make the contrast reject-vs-accept; but the
gemini_agent handler executes a bare `return`, producing Python None — a
falsy value, not an accept result — while the health variant returns
False.  Both defaults are therefore falsy; the gemini variant contradicts
its own documented intent. -/
theorem claim_c9_validator_defaults :
    HealthNewsAgent.validate_article_with_gemini none = false ∧
    GeminiAgent.validate_article_with_gemini none = PyBoolOrNone.pyNone ∧
    ¬(GeminiAgent.validate_article_with_gemini none = PyBoolOrNone.pyTrue) ∧
    pyTruthy (GeminiAgent.validate_article_with_gemini none) = false := by
  decide

/-- Claim C8 (amended): `generate_hashtags` returns at most five tags, and
every returned tag either matches the anchored pattern `#[a-zA-Z0-9]+`
(those accepted from the cleaned enrichment response) or comes from the
local fallback, which keeps at most the first three title words and only
those satisfying the Unicode `isalnum` test — a weaker condition than the
ASCII pattern (see the counterexample). -/
theorem claim_c8_tags (title : PyStr) (response : Option (List PyStr))
    (t : PyStr) (hmem : t ∈ generate_hashtags title response) :
    (generate_hashtags title response).length ≤ 5 ∧
    (fallbackTags title).length ≤ 3 ∧
    (matchesTagPattern t = true ∨ t ∈ fallbackTags title) := by
  have hfb : (fallbackTags title).length ≤ 3 := by
    unfold fallbackTags
    exact le_trans (List.length_filterMap_le _ _) (List.length_take_le _ _)
  refine ⟨?_, hfb, ?_⟩
  · cases response with
    | none =>
      show (fallbackTags title).length ≤ 5
      omega
    | some lines =>
      simp only [generate_hashtags]
      exact List.length_take_le _ _
  · cases response with
    | none =>
      right
      exact hmem
    | some lines =>
      simp only [generate_hashtags] at hmem
      have hmem2 := List.mem_of_mem_take hmem
      by_cases hc : (lines.map cleanRespTag).filter matchesTagPattern = []
      · rw [if_pos hc] at hmem2
        right
        exact hmem2
      · rw [if_neg hc] at hmem2
        left
        exact List.of_mem_filter hmem2

/-- Witness for C8 at a successful enrichment response. -/
theorem claim_c8_witness :
    "#Health".toList ∈ generate_hashtags "Health News Today".toList
        (some ["#Health".toList, "#News".toList]) ∧
    ((generate_hashtags "Health News Today".toList
        (some ["#Health".toList, "#News".toList])).length ≤ 5 ∧
     (fallbackTags "Health News Today".toList).length ≤ 3 ∧
     (matchesTagPattern "#Health".toList = true ∨
      "#Health".toList ∈ fallbackTags "Health News Today".toList)) :=
  ⟨by decide, claim_c8_tags "Health News Today".toList
    (some ["#Health".toList, "#News".toList]) "#Health".toList (by decide)⟩

/-- Claim C8 counterexample: when the enrichment call fails on the title
"Café News", the fallback accepts the word "Café" (é is alphanumeric for
Python `isalnum`) and returns the tag "#café", which does not match the
pattern `#[A-Za-z0-9]+`: not every returned tag satisfies the claimed
invariant. -/
theorem claim_c8_counterexample :
    "#café".toList ∈ generate_hashtags "Café News".toList none ∧
    matchesTagPattern "#café".toList = false := by decide
